import Mathlib

/-!
Verification of the sourceror-driver compile/run pipeline (src/index.ts).

The development shallowly embeds the driver: the external collaborators
(js-slang parser, Sourceror compiler, WebAssembly host) are black boxes,
so each `compile`/`run` invocation is modelled as a pure function of an
environment describing the collaborators' behaviour for that invocation
(parse outcome, diagnostic-callback invocations, compiler outcome,
host-validation outcome, entry-point behaviour).  Promise settlement is
modelled explicitly: a fulfilled promise carries a value, a rejected one
carries an error, and `.then(onOk, onErr)` handlers that `return` a value
produce a fulfilled promise (exactly the JavaScript semantics, which is
load-bearing for the cleanup handlers at the end of `compile`).
-/

namespace SourcerorDriver

/-- Kinds of the js-slang diagnostics pushed by the driver
(source: `ErrorType.SYNTAX` / `ErrorType.RUNTIME`). -/
inductive ErrorType
  | Syntax
  | Runtime
deriving DecidableEq, Repr

/-- Severity of a js-slang diagnostic (source: `ErrorSeverity.WARNING` / `ERROR`). -/
inductive ErrorSeverity
  | WARNING
  | ERROR
deriving DecidableEq, Repr

/-- A source position, `{ line, column }`.  JavaScript numbers holding
line/column values are modelled as integers. -/
structure Position where
  line : Int
  column : Int
deriving DecidableEq, Repr

/-- A source range `{ start, end }` (the `end` field is named `stop` here
because `end` is a Lean keyword). -/
structure SourceLocation where
  start : Position
  stop : Position
deriving DecidableEq, Repr

/-- One entry pushed onto `context.errors`.  The source stores `explain`
and `elaborate` as thunks returning fixed strings; they are modelled by
the strings those thunks return. -/
structure Diagnostic where
  type : ErrorType
  severity : ErrorSeverity
  location : SourceLocation
  explain : String
  elaborate : String
deriving DecidableEq, Repr

/-! ## Linear memory and the value decoder (`read_js_result`) -/

/-- A WebAssembly linear-memory buffer: a byte size and the byte stored at
each index (only indices below `size` are ever read; values are reduced
mod 256 because a memory cell holds one byte). -/
structure LinearMemory where
  size : Nat
  byte : Nat → Nat

/-- The byte value stored at index `i`. -/
def memByte (m : LinearMemory) (i : Nat) : Nat := m.byte i % 256

/-- The 4-byte little-endian unsigned integer starting at byte offset
`off` (the in-bounds value read by `DataView.getUint32(off, true)`). -/
def u32 (m : LinearMemory) (off : Nat) : Nat :=
  memByte m off + memByte m (off + 1) * 0x100 +
    memByte m (off + 2) * 0x10000 + memByte m (off + 3) * 0x1000000

/-- The 8-byte little-endian unsigned integer starting at byte offset
`off`: the bit pattern of the IEEE-754 double read by
`DataView.getFloat64(off, true)`.  Doubles are represented by their
64-bit pattern, which the little-endian read determines exactly. -/
def u64 (m : LinearMemory) (off : Nat) : Nat :=
  u32 m off + u32 m (off + 4) * 0x100000000

/-- The `len` bytes starting at offset `off` (the contents of an
in-bounds `Uint8Array(buffer, off, len)` view). -/
def byteSlice (m : LinearMemory) (off len : Nat) : List Nat :=
  (List.range len).map (fun i => memByte m (off + i))

/-- Model of `DataView.getUint32(off, true)` on a view of the whole buffer:
throws a `RangeError` when the 4 bytes would reach past the buffer. -/
def getUint32 (m : LinearMemory) (off : Nat) : Except String Nat :=
  if off + 4 ≤ m.size then .ok (u32 m off) else .error "RangeError"

/-- Model of `DataView.getFloat64(off, true)`: the bit pattern of the double, or a
`RangeError` when the 8 bytes would reach past the buffer. -/
def getFloat64 (m : LinearMemory) (off : Nat) : Except String Nat :=
  if off + 8 ≤ m.size then .ok (u64 m off) else .error "RangeError"

/-- Model of `new Uint8Array(buffer, off, len)`: throws a `RangeError` when the
requested range reaches past the buffer. -/
def uint8ArrayView (m : LinearMemory) (off len : Nat) : Except String (List Nat) :=
  if off + len ≤ m.size then .ok (byteSlice m off len) else .error "RangeError"

/-- The replacement character U+FFFD emitted by `TextDecoder` for
malformed input. -/
def replacementChar : Char := Char.ofNat 0xFFFD

/-- Whether a byte is a UTF-8 continuation byte (`0x80 ≤ b < 0xC0`). -/
def isContinuationByte (b : Nat) : Bool := 0x80 ≤ b && b < 0xC0

/-- UTF-8 decoding with U+FFFD replacement of malformed sequences: the
behaviour of `new TextDecoder().decode` (whose default mode never
throws). -/
def utf8Decode : List Nat → List Char
  | [] => []
  | b0 :: bs =>
    if b0 < 0x80 then
      Char.ofNat b0 :: utf8Decode bs
    else if b0 < 0xE0 then
      match bs with
      | b1 :: bs2 =>
        if 0xC2 ≤ b0 ∧ isContinuationByte b1 then
          Char.ofNat ((b0 - 0xC0) * 0x40 + (b1 - 0x80)) :: utf8Decode bs2
        else
          replacementChar :: utf8Decode (b1 :: bs2)
      | [] => [replacementChar]
    else if b0 < 0xF0 then
      match bs with
      | b1 :: b2 :: bs3 =>
        if isContinuationByte b1 ∧ isContinuationByte b2 ∧
            0x800 ≤ (b0 - 0xE0) * 0x1000 + (b1 - 0x80) * 0x40 + (b2 - 0x80) ∧
            ((b0 - 0xE0) * 0x1000 + (b1 - 0x80) * 0x40 + (b2 - 0x80) < 0xD800 ∨
              0xE000 ≤ (b0 - 0xE0) * 0x1000 + (b1 - 0x80) * 0x40 + (b2 - 0x80)) then
          Char.ofNat ((b0 - 0xE0) * 0x1000 + (b1 - 0x80) * 0x40 + (b2 - 0x80)) :: utf8Decode bs3
        else
          replacementChar :: utf8Decode (b1 :: b2 :: bs3)
      | [b1] => replacementChar :: utf8Decode [b1]
      | [] => [replacementChar]
    else if b0 < 0xF5 then
      match bs with
      | b1 :: b2 :: b3 :: bs4 =>
        if isContinuationByte b1 ∧ isContinuationByte b2 ∧ isContinuationByte b3 ∧
            0x10000 ≤ (b0 - 0xF0) * 0x40000 + (b1 - 0x80) * 0x1000 +
              (b2 - 0x80) * 0x40 + (b3 - 0x80) ∧
            (b0 - 0xF0) * 0x40000 + (b1 - 0x80) * 0x1000 +
              (b2 - 0x80) * 0x40 + (b3 - 0x80) < 0x110000 then
          Char.ofNat ((b0 - 0xF0) * 0x40000 + (b1 - 0x80) * 0x1000 +
            (b2 - 0x80) * 0x40 + (b3 - 0x80)) :: utf8Decode bs4
        else
          replacementChar :: utf8Decode (b1 :: b2 :: b3 :: bs4)
      | [b1, b2] => replacementChar :: utf8Decode [b1, b2]
      | [b1] => replacementChar :: utf8Decode [b1]
      | [] => [replacementChar]
    else
      replacementChar :: utf8Decode bs
termination_by structural l => l

/-- The host value produced by `read_js_result`.  A `number` carries the
64-bit IEEE-754 bit pattern of the JavaScript double (the little-endian
bytes read from memory); all the marker cases of the source are plain
JavaScript strings and are therefore `str` here as well. -/
inductive JsValue
  | undef
  | number (bits : Nat)
  | boolean (b : Bool)
  | str (s : String)
deriving DecidableEq, Repr

/-- Model of `read_js_result(linear_memory)`: reads the 4-byte little-endian tag
at byte offset `(1 <<< 20) - 12` and interprets the data at offset
`(1 <<< 20) - 8` according to the tag (the source's `switch`).  Every
`DataView` / `Uint8Array` access that would reach past the buffer throws
a `RangeError`, modelled by the `.error` branch. -/
def read_js_result (m : LinearMemory) : Except String JsValue :=
  match getUint32 m ((1 <<< 20) - 12) with
  | .error e => .error e
  | .ok tag =>
    let data_offset := (1 <<< 20) - 8
    if tag = 0 then .ok (.str "(unassigned variable was returned)")
    else if tag = 1 then .ok .undef
    else if tag = 2 then
      match getFloat64 m data_offset with
      | .error e => .error e
      | .ok bits => .ok (.number bits)
    else if tag = 3 then
      match getUint32 m data_offset with
      | .error e => .error e
      | .ok v => .ok (.boolean (v != 0))
    else if tag = 4 then
      match getUint32 m data_offset with
      | .error e => .error e
      | .ok ptr =>
        match getUint32 m ptr with
        | .error e => .error e
        | .ok len =>
          match uint8ArrayView m (ptr + 4) len with
          | .error e => .error e
          | .ok bytes => .ok (.str (String.mk (utf8Decode bytes)))
    else if tag = 5 then .ok (.str "(function was returned)")
    else .ok (.str ("(struct or invalid type (" ++ toString tag ++ ") was returned)"))

/-! ## The `compile` entry point -/

/-- One invocation of the diagnostic callback passed to
`Sourceror.create_context`: the `(severity_code, message, line, column)`
arguments of that invocation. -/
structure CallbackEvent where
  severity_code : Int
  message : String
  line : Int
  column : Int
deriving DecidableEq, Repr

/-- An error value flowing through the promise chains: one of the two
driver error classes, or any other host/engine failure (carrying its
description). -/
inductive JsErr
  | compileError (msg : String)
  | runtimeError (msg : String)
  | other (msg : String)
deriving DecidableEq, Repr

/-- An opaque `WebAssembly.Module` produced by host validation. -/
structure WasmModule where
  id : Nat
deriving DecidableEq, Repr

/-- The behaviour of the external collaborators during one `compile`
invocation: the parse outcome (`slang_parse` returns a program or
`undefined`), the invocations of the context's diagnostic callback
(all of which happen while `Sourceror.compile` runs), the settlement of
`Sourceror.compile`'s promise, and the settlement of
`WebAssembly.compile` as a function of the produced bytes. -/
structure CompileEnv where
  parseResult : Option String
  callbackEvents : List CallbackEvent
  sourcerorResult : Except JsErr (List Nat)
  validateResult : List Nat → Except String WasmModule

/-- Settlement of the promise returned by `compile`.  The distinction
between `fulfilledErr` and `rejected` matters: a `.then` handler that
returns an error object fulfils the resulting promise with it. -/
inductive CompileOutcome
  | fulfilledModule (m : WasmModule)
  | fulfilledErr (e : JsErr)
  | rejected (e : JsErr)
deriving DecidableEq, Repr

/-- Everything observable about one `compile` invocation: the settled
promise, the diagnostics `compile` itself pushed onto `context.errors`
(in push order), the number of `Sourceror.create_context` and
`Sourceror.destroy_context` calls, and whether `WebAssembly.compile`
was invoked. -/
structure CompileResult where
  outcome : CompileOutcome
  diagnostics : List Diagnostic
  createCalls : Nat
  destroyCalls : Nat
  validationAttempted : Bool
deriving Repr

/-- The diagnostic pushed by the callback installed in
`Sourceror.create_context` for one callback invocation. -/
def callbackDiagnostic (e : CallbackEvent) : Diagnostic :=
  { type := .Syntax
  , severity := if 4 ≤ e.severity_code then .ERROR else .WARNING
  , location := ⟨⟨e.line, e.column⟩, ⟨e.line, e.column + 1⟩⟩
  , explain := e.message
  , elaborate := "" }

/-- The diagnostic pushed in the `WebAssembly.compile(...).catch` handler
when host validation of the produced bytes fails with message `err`. -/
def validationFailureDiagnostic (err : String) : Diagnostic :=
  { type := .Syntax
  , severity := .ERROR
  , location := ⟨⟨0, 0⟩, ⟨0, 0⟩⟩
  , explain := err
  , elaborate := "Your browser's WebAssembly engine is unable to compile the WebAssembly binary produced by Sourceror.  This is probably a bug in Sourceror; please report it." }

/-- The `compile` pipeline as a function of the collaborators' behaviour.
Paths, following the source line by line: a parse failure rejects before
any context exists; otherwise a context is created, all callback
invocations push their diagnostics and drive the `has_errors` flag, and
the promise chain on `Sourceror.compile` runs.  The final
`.then(x => { destroy_context; return x }, e => { destroy_context; return e })`
destroys the context exactly once on every path, and — because its
rejection handler returns `e` rather than rethrowing it — converts every
upstream rejection into a fulfilment carrying the error object. -/
def compile (env : CompileEnv) : CompileResult :=
  match env.parseResult with
  | none =>
    { outcome := .rejected (.compileError "js-slang cannot parse the program")
    , diagnostics := []
    , createCalls := 0
    , destroyCalls := 0
    , validationAttempted := false }
  | some _ =>
    let diags := env.callbackEvents.map callbackDiagnostic
    let has_errors := env.callbackEvents.any (fun e => decide (4 ≤ e.severity_code))
    match env.sourcerorResult with
    | .error e =>
      { outcome := .fulfilledErr e
      , diagnostics := diags
      , createCalls := 1
      , destroyCalls := 1
      , validationAttempted := false }
    | .ok wasm_binary =>
      if has_errors then
        { outcome := .fulfilledErr (.compileError "Syntax error")
        , diagnostics := diags
        , createCalls := 1
        , destroyCalls := 1
        , validationAttempted := false }
      else
        match env.validateResult wasm_binary with
        | .ok m =>
          { outcome := .fulfilledModule m
          , diagnostics := diags
          , createCalls := 1
          , destroyCalls := 1
          , validationAttempted := true }
        | .error err =>
          { outcome := .fulfilledErr (.compileError "WebAssembly compilation error")
          , diagnostics := diags ++ [validationFailureDiagnostic err]
          , createCalls := 1
          , destroyCalls := 1
          , validationAttempted := true }

/-! ## The `run` entry point -/

/-- Model of `stringifySourcerorRuntimeErrorCode(code)`: the closed fault-code
table, mapping a code to its `(explain, elaborate)` pair. -/
def stringifySourcerorRuntimeErrorCode (code : Int) : String × String :=
  if code = 0x0 then ("General runtime error", "")
  else if code = 0x1 then
    ("Out of memory",
     "Strings and objects are allocated on the heap.  You have exhausted the available heap space.  Try recompiling your program with increased heap space.")
  else if code = 0x10 then ("General runtime type error", "")
  else if code = 0x12 then ("Unary operator called with incorrect parameter type", "")
  else if code = 0x13 then ("Binary operator called with incorrect parameter type", "")
  else if code = 0x16 then ("Function call operator applied on a non-function", "")
  else if code = 0x17 then ("If statement has a non-boolean condition", "")
  else
    ("Unknown runtime error", "This is probably a bug in Sourceror; please report it.")

/-- The behaviour of the instantiated module's `main` export for one
`run` invocation: it either returns normally, or its first action that
leaves the module is a call of the imported `core.error` fault function
with the given arguments (the import throws the private
`propagationToken`, which no wasm code can catch, so execution unwinds
immediately: nothing after the fault site takes effect and at most one
fault call is ever observed), or the engine itself throws some other
value (e.g. a trap), described by its `toString`. -/
inductive MainBehavior
  | returnsNormally
  | callsFault (code : Int) (detail : Int) (file : Int) (line : Int) (column : Int)
  | throwsOther (msg : String)

/-- The environment of one `run` invocation: the module's exported linear
memory contents at the time `main` settles, and `main`'s behaviour.
Instantiation itself is assumed to succeed (a rejected
`WebAssembly.instantiate` simply propagates and none of the properties
below concern it). -/
structure RunEnv where
  memory : LinearMemory
  mainBehavior : MainBehavior

/-- Settlement of the promise returned by `run`. -/
inductive RunOutcome
  | fulfilled (v : JsValue)
  | rejected (e : JsErr)
deriving DecidableEq, Repr

/-- Everything observable about one `run` invocation: the settled
promise, the diagnostics pushed onto `context.errors` (in push order),
and whether `read_js_result` (the Value Decoder) was invoked. -/
structure RunResult where
  outcome : RunOutcome
  diagnostics : List Diagnostic
  decoderInvoked : Bool
deriving Repr

/-- The diagnostic pushed by the `core.error` fault import before it
throws the propagation token. -/
def faultDiagnostic (code line column : Int) : Diagnostic :=
  { type := .Runtime
  , severity := .ERROR
  , location := ⟨⟨line, column⟩, ⟨line, column + 1⟩⟩
  , explain := (stringifySourcerorRuntimeErrorCode code).1
  , elaborate := (stringifySourcerorRuntimeErrorCode code).2 }

/-- The diagnostic pushed in the `catch` branch for a thrown value other
than the propagation token (its `explain` and `elaborate` are both the
thrown value's `toString`). -/
def unexpectedRunDiagnostic (msg : String) : Diagnostic :=
  { type := .Runtime
  , severity := .ERROR
  , location := ⟨⟨0, 0⟩, ⟨0, 0⟩⟩
  , explain := msg
  , elaborate := msg }

/-- The `run` pipeline as a function of the module's behaviour, following
the source: on normal return of `main`, `read_js_result` runs (and a
`RangeError` it throws lands in the same `catch`, is recorded as an
unexpected runtime diagnostic and re-raised); a fault call pushes its
diagnostic inside the import, the import throws the propagation token,
the `catch` recognises the token and rejects with
`RuntimeError("runtime error")`; any other thrown value is recorded and
re-raised unchanged. -/
def run (env : RunEnv) : RunResult :=
  match env.mainBehavior with
  | .returnsNormally =>
    match read_js_result env.memory with
    | .ok v =>
      { outcome := .fulfilled v, diagnostics := [], decoderInvoked := true }
    | .error msg =>
      { outcome := .rejected (.other msg)
      , diagnostics := [unexpectedRunDiagnostic msg]
      , decoderInvoked := true }
  | .callsFault code _detail _file line column =>
    { outcome := .rejected (.runtimeError "runtime error")
    , diagnostics := [faultDiagnostic code line column]
    , decoderInvoked := false }
  | .throwsOther msg =>
    { outcome := .rejected (.other msg)
    , diagnostics := [unexpectedRunDiagnostic msg]
    , decoderInvoked := false }

/-! ## Concrete memories and environments used as test inputs -/

/-- A memory of exactly `1 <<< 20` bytes (the minimum the ABI grants)
whose bytes are given by an association list, all other bytes zero. -/
def mkMem (entries : List (Nat × Nat)) : LinearMemory :=
  ⟨1 <<< 20, fun i => (entries.lookup i).getD 0⟩

/-- A memory whose tag word holds 5 (a function was returned). -/
def memFunctionTag : LinearMemory :=
  mkMem [((1 <<< 20) - 12, 5)]

/-- The ASCII bytes of the text "(function was returned)". -/
def strFnBytes : List Nat :=
  [40, 102, 117, 110, 99, 116, 105, 111, 110, 32, 119, 97, 115, 32,
   114, 101, 116, 117, 114, 110, 101, 100, 41]

/-- A memory whose tag word holds 4 (a string), whose data word points at
offset 100, where a 23-byte string with the same characters as the tag-5
marker text is stored. -/
def memStringFunction : LinearMemory :=
  mkMem ([((1 <<< 20) - 12, 4), ((1 <<< 20) - 8, 100), (100, 23)] ++
    (List.range 23).map (fun i => (104 + i, strFnBytes.getD i 0)))

/-- A memory whose tag word holds 4 and whose data word holds the pointer
`0xFFFFFFF0`, far past the end of the buffer. -/
def memOobString : LinearMemory :=
  mkMem [((1 <<< 20) - 12, 4), ((1 <<< 20) - 8, 0xF0),
         ((1 <<< 20) - 7, 0xFF), ((1 <<< 20) - 6, 0xFF), ((1 <<< 20) - 5, 0xFF)]

/-- A memory whose tag word holds 99, a tag outside the table. -/
def memTag99 : LinearMemory :=
  mkMem [((1 <<< 20) - 12, 99)]

/-- A memory whose tag word holds 2 and whose data words hold the
little-endian IEEE-754 bit pattern `0x40091EB851EB851F` of the double
`3.14`. -/
def memTag2 : LinearMemory :=
  mkMem [((1 <<< 20) - 12, 2), ((1 <<< 20) - 8, 0x1F), ((1 <<< 20) - 7, 0x85),
         ((1 <<< 20) - 6, 0xEB), ((1 <<< 20) - 5, 0x51), ((1 <<< 20) - 4, 0xB8),
         ((1 <<< 20) - 3, 0x1E), ((1 <<< 20) - 2, 0x09), ((1 <<< 20) - 1, 0x40)]

/-- A memory whose tag word holds 3 and whose data word holds 1. -/
def memTag3 : LinearMemory :=
  mkMem [((1 <<< 20) - 12, 3), ((1 <<< 20) - 8, 1)]

/-- A memory whose tag word holds 0 (an unassigned variable). -/
def memTag0 : LinearMemory :=
  mkMem [((1 <<< 20) - 12, 0)]

/-- Environment of a compilation in which the diagnostic callback was
invoked once with severity code 4 and the compiler still produced bytes
that the host would accept. -/
def envSyntaxError : CompileEnv :=
  { parseResult := some "prog"
  , callbackEvents := [⟨4, "unexpected token", 1, 0⟩]
  , sourcerorResult := .ok [0, 97, 115, 109]
  , validateResult := fun _ => .ok ⟨0⟩ }

/-- Environment of a compilation with no diagnostics whose bytes the
host's validator rejects. -/
def envValidationFailure : CompileEnv :=
  { parseResult := some "prog"
  , callbackEvents := []
  , sourcerorResult := .ok [0, 97, 115, 109]
  , validateResult := fun _ => .error "CompileError: import kind mismatch" }

/-- Environment of a compilation with one warning-severity diagnostic
whose bytes the host accepts as module 7. -/
def envSuccess : CompileEnv :=
  { parseResult := some "prog"
  , callbackEvents := [⟨1, "style warning", 3, 5⟩]
  , sourcerorResult := .ok [0, 97, 115, 109]
  , validateResult := fun _ => .ok ⟨7⟩ }

/-- Environment of a compilation whose source the parser rejects. -/
def envParseFailure : CompileEnv :=
  { parseResult := none
  , callbackEvents := []
  , sourcerorResult := .ok []
  , validateResult := fun _ => .error "unused" }

/-! ## Supporting lemmas -/

/-- With the ABI-guaranteed `1 <<< 20` bytes present, the tag read is in
bounds and yields the little-endian word at offset `(1 <<< 20) - 12`. -/
theorem getUint32_tag_ok (m : LinearMemory) (hsize : 1 <<< 20 ≤ m.size) :
    getUint32 m ((1 <<< 20) - 12) = .ok (u32 m ((1 <<< 20) - 12)) := by
  unfold getUint32
  rw [if_pos (le_trans (by decide) hsize)]

/-- With the ABI-guaranteed `1 <<< 20` bytes present, a 4-byte read at
the data offset is in bounds. -/
theorem getUint32_data_ok (m : LinearMemory) (hsize : 1 <<< 20 ≤ m.size) :
    getUint32 m ((1 <<< 20) - 8) = .ok (u32 m ((1 <<< 20) - 8)) := by
  unfold getUint32
  rw [if_pos (le_trans (by decide) hsize)]

/-- With the ABI-guaranteed `1 <<< 20` bytes present, the 8-byte read at
the data offset is in bounds. -/
theorem getFloat64_data_ok (m : LinearMemory) (hsize : 1 <<< 20 ≤ m.size) :
    getFloat64 m ((1 <<< 20) - 8) = .ok (u64 m ((1 <<< 20) - 8)) := by
  unfold getFloat64
  rw [if_pos (le_trans (by decide) hsize)]

/-- Tag 0 yields the unassigned-variable marker string. -/
theorem read_js_result_tag0 (m : LinearMemory) (hsize : 1 <<< 20 ≤ m.size)
    (h : u32 m ((1 <<< 20) - 12) = 0) :
    read_js_result m = .ok (.str "(unassigned variable was returned)") := by
  unfold read_js_result
  rw [getUint32_tag_ok m hsize, h]
  rfl

/-- Tag 1 yields the absent/undefined value. -/
theorem read_js_result_tag1 (m : LinearMemory) (hsize : 1 <<< 20 ≤ m.size)
    (h : u32 m ((1 <<< 20) - 12) = 1) :
    read_js_result m = .ok .undef := by
  unfold read_js_result
  rw [getUint32_tag_ok m hsize, h]
  rfl

/-- Tag 2 yields the number whose IEEE-754 bit pattern is the 8-byte
little-endian word at the data offset. -/
theorem read_js_result_tag2 (m : LinearMemory) (hsize : 1 <<< 20 ≤ m.size)
    (h : u32 m ((1 <<< 20) - 12) = 2) :
    read_js_result m = .ok (.number (u64 m ((1 <<< 20) - 8))) := by
  unfold read_js_result
  rw [getUint32_tag_ok m hsize, h]
  show (match getFloat64 m ((1 <<< 20) - 8) with
    | Except.error e => Except.error e
    | Except.ok bits => Except.ok (JsValue.number bits)) = _
  rw [getFloat64_data_ok m hsize]

/-- Tag 3 yields true exactly when the 4-byte little-endian word at the
data offset is nonzero. -/
theorem read_js_result_tag3 (m : LinearMemory) (hsize : 1 <<< 20 ≤ m.size)
    (h : u32 m ((1 <<< 20) - 12) = 3) :
    read_js_result m = .ok (.boolean (u32 m ((1 <<< 20) - 8) != 0)) := by
  unfold read_js_result
  rw [getUint32_tag_ok m hsize, h]
  show (match getUint32 m ((1 <<< 20) - 8) with
    | Except.error e => Except.error e
    | Except.ok v => Except.ok (JsValue.boolean (v != 0))) = _
  rw [getUint32_data_ok m hsize]

/-- Tag 4 with an in-bounds pointer and length yields the UTF-8 decoding
of the `len` bytes at `ptr + 4`, where `ptr` is the word at the data
offset and `len` the word at `ptr`. -/
theorem read_js_result_tag4 (m : LinearMemory) (hsize : 1 <<< 20 ≤ m.size)
    (h4 : u32 m ((1 <<< 20) - 12) = 4)
    (hb : u32 m ((1 <<< 20) - 8) + 4 + u32 m (u32 m ((1 <<< 20) - 8)) ≤ m.size) :
    read_js_result m =
      .ok (.str (String.mk (utf8Decode
        (byteSlice m (u32 m ((1 <<< 20) - 8) + 4) (u32 m (u32 m ((1 <<< 20) - 8))))))) := by
  unfold read_js_result
  rw [getUint32_tag_ok m hsize, h4]
  show (match getUint32 m ((1 <<< 20) - 8) with
    | Except.error e => Except.error e
    | Except.ok ptr =>
      match getUint32 m ptr with
      | Except.error e => Except.error e
      | Except.ok len =>
        match uint8ArrayView m (ptr + 4) len with
        | Except.error e => Except.error e
        | Except.ok bytes => Except.ok (JsValue.str (String.mk (utf8Decode bytes)))) = _
  rw [getUint32_data_ok m hsize]
  dsimp only []
  rw [show getUint32 m (u32 m ((1 <<< 20) - 8)) = Except.ok (u32 m (u32 m ((1 <<< 20) - 8))) by
    unfold getUint32; rw [if_pos (by omega)]]
  dsimp only []
  rw [show uint8ArrayView m (u32 m ((1 <<< 20) - 8) + 4) (u32 m (u32 m ((1 <<< 20) - 8))) =
      Except.ok (byteSlice m (u32 m ((1 <<< 20) - 8) + 4) (u32 m (u32 m ((1 <<< 20) - 8)))) by
    unfold uint8ArrayView; rw [if_pos hb]]

/-- Tag 5 yields the function marker string. -/
theorem read_js_result_tag5 (m : LinearMemory) (hsize : 1 <<< 20 ≤ m.size)
    (h : u32 m ((1 <<< 20) - 12) = 5) :
    read_js_result m = .ok (.str "(function was returned)") := by
  unfold read_js_result
  rw [getUint32_tag_ok m hsize, h]
  rfl

/-- A tag of 6 or more yields the invalid-tag marker string embedding the
raw tag value. -/
theorem read_js_result_tagBig (m : LinearMemory) (hsize : 1 <<< 20 ≤ m.size)
    (t : Nat) (ht : u32 m ((1 <<< 20) - 12) = t) (h6 : 6 ≤ t) :
    read_js_result m =
      .ok (.str ("(struct or invalid type (" ++ toString t ++ ") was returned)")) := by
  unfold read_js_result
  rw [getUint32_tag_ok m hsize, ht]
  dsimp only []
  rw [if_neg (by omega), if_neg (by omega), if_neg (by omega), if_neg (by omega),
    if_neg (by omega), if_neg (by omega)]

/-! ## Claim theorems -/

/-- C1: in a compilation whose diagnostic callback saw severity code ≥ 4
(so `has_errors` is true) and whose compiler still produced bytes, host
validation is never attempted and no module is returned, and the
`CompileError("Syntax error")` value carrying the syntax-error message is
produced — but the promise returned by `compile` does not reject: the
final cleanup handler `(e) => { Sourceror.destroy_context(wasm_context); return e; }`
returns the error object instead of rethrowing it, so the promise is
fulfilled with the `CompileError` value. -/
theorem compile_syntax_error_fulfils_with_error_object :
    compile envSyntaxError =
      { outcome := .fulfilledErr (.compileError "Syntax error")
      , diagnostics := [⟨.Syntax, .ERROR, ⟨⟨1, 0⟩, ⟨1, 1⟩⟩, "unexpected token", ""⟩]
      , createCalls := 1
      , destroyCalls := 1
      , validationAttempted := false } := rfl

/-- C2: on every compilation, `Sourceror.destroy_context` is called
exactly as many times as `Sourceror.create_context`: zero times when
parsing fails, exactly once on every other path (success, syntax-error
failure, validation failure, unexpected failure of `Sourceror.compile`). -/
theorem compile_destroy_matches_create (env : CompileEnv) :
    (compile env).destroyCalls = (compile env).createCalls ∧
    (compile env).createCalls =
      (match env.parseResult with | none => 0 | some _ => 1) := by
  obtain ⟨p, ev, sr, vr⟩ := env
  cases p with
  | none => exact ⟨rfl, rfl⟩
  | some t =>
    cases sr with
    | error e => exact ⟨rfl, rfl⟩
    | ok bs =>
      by_cases h : (ev.any fun e => decide (4 ≤ e.severity_code)) = true
      · simp only [compile, h, if_true]
        exact ⟨trivial, trivial⟩
      · rw [Bool.not_eq_true] at h
        cases hv : vr bs with
        | ok m => simp only [compile, h, Bool.false_eq_true, if_false, hv]; exact ⟨trivial, trivial⟩
        | error err => simp only [compile, h, Bool.false_eq_true, if_false, hv]; exact ⟨trivial, trivial⟩

/-- C4: when bytes were produced with `has_errors` false and host
validation rejects them, exactly one diagnostic is appended, with kind
Syntax, severity Error, location `(0,0)`–`(0,0)`, `explain` the host's
validation message and an `elaborate` noting a probable compiler defect;
the `CompileError("WebAssembly compilation error")` value is produced —
but, as in C1, the final cleanup handler converts the rejection into a
fulfilment carrying that `CompileError` object, so `compile` does not
fail. -/
theorem compile_validation_failure_fulfils_with_error_object :
    compile envValidationFailure =
      { outcome := .fulfilledErr (.compileError "WebAssembly compilation error")
      , diagnostics := [⟨.Syntax, .ERROR, ⟨⟨0, 0⟩, ⟨0, 0⟩⟩,
          "CompileError: import kind mismatch",
          "Your browser's WebAssembly engine is unable to compile the WebAssembly binary produced by Sourceror.  This is probably a bug in Sourceror; please report it."⟩]
      , createCalls := 1
      , destroyCalls := 1
      , validationAttempted := true } := rfl

/-- C5: when the running module invokes the fault import with any code,
exactly one diagnostic is appended — kind Runtime, severity Error,
location `(line,column)`–`(line,column+1)`, with the looked-up
explain/elaborate pair for the code — execution is aborted immediately
(the import throws the private propagation token, so nothing after the
fault site takes effect and the Value Decoder is never invoked), and
`run` rejects with `RuntimeError("runtime error")`. -/
theorem run_fault_rejects_with_runtime_error (code detail file line column : Int)
    (mem : LinearMemory) :
    run ⟨mem, .callsFault code detail file line column⟩ =
      { outcome := .rejected (.runtimeError "runtime error")
      , diagnostics := [⟨.Runtime, .ERROR, ⟨⟨line, column⟩, ⟨line, column + 1⟩⟩,
          (stringifySourcerorRuntimeErrorCode code).1,
          (stringifySourcerorRuntimeErrorCode code).2⟩]
      , decoderInvoked := false } := rfl

/-- C8: when the parser yields no tree, `compile` rejects with the
parse-failure `CompileError`, creates (and hence destroys) no context,
and appends no diagnostics itself. -/
theorem compile_parse_failure_rejects (env : CompileEnv)
    (hp : env.parseResult = none) :
    compile env =
      { outcome := .rejected (.compileError "js-slang cannot parse the program")
      , diagnostics := []
      , createCalls := 0
      , destroyCalls := 0
      , validationAttempted := false } := by
  unfold compile
  rw [hp]

/-- Witness for C8 at a concrete environment whose parser yields no
tree. -/
theorem compile_parse_failure_rejects_witness :
    compile envParseFailure =
      { outcome := .rejected (.compileError "js-slang cannot parse the program")
      , diagnostics := []
      , createCalls := 0
      , destroyCalls := 0
      , validationAttempted := false } :=
  compile_parse_failure_rejects envParseFailure rfl

/-- C9: the fault-code table maps exactly the codes 0x0, 0x1, 0x10,
0x12, 0x13, 0x16 and 0x17 to their fixed explain/elaborate pairs — 0x1
to the out-of-memory explanation recommending recompilation with a
larger heap — and every other integer code to the generic
unknown-runtime-error pair. -/
theorem stringify_code_table :
    stringifySourcerorRuntimeErrorCode 0x0 = ("General runtime error", "") ∧
    stringifySourcerorRuntimeErrorCode 0x1 =
      ("Out of memory",
       "Strings and objects are allocated on the heap.  You have exhausted the available heap space.  Try recompiling your program with increased heap space.") ∧
    stringifySourcerorRuntimeErrorCode 0x10 = ("General runtime type error", "") ∧
    stringifySourcerorRuntimeErrorCode 0x12 =
      ("Unary operator called with incorrect parameter type", "") ∧
    stringifySourcerorRuntimeErrorCode 0x13 =
      ("Binary operator called with incorrect parameter type", "") ∧
    stringifySourcerorRuntimeErrorCode 0x16 =
      ("Function call operator applied on a non-function", "") ∧
    stringifySourcerorRuntimeErrorCode 0x17 =
      ("If statement has a non-boolean condition", "") ∧
    ∀ c : Int, c ∉ ([0x0, 0x1, 0x10, 0x12, 0x13, 0x16, 0x17] : List Int) →
      stringifySourcerorRuntimeErrorCode c =
        ("Unknown runtime error", "This is probably a bug in Sourceror; please report it.") := by
  refine ⟨rfl, rfl, rfl, rfl, rfl, rfl, rfl, ?_⟩
  intro c hc
  simp only [List.mem_cons, List.not_mem_nil, or_false, not_or] at hc
  obtain ⟨h0, h1, h2, h3, h4, h5, h6⟩ := hc
  unfold stringifySourcerorRuntimeErrorCode
  rw [if_neg h0, if_neg h1, if_neg h2, if_neg h3, if_neg h4, if_neg h5, if_neg h6]

/-- Witness for C9 at the concrete code 5, which is outside the table. -/
theorem stringify_code_table_witness :
    stringifySourcerorRuntimeErrorCode 5 =
      ("Unknown runtime error", "This is probably a bug in Sourceror; please report it.") :=
  stringify_code_table.2.2.2.2.2.2.2 5 (by decide)

/-- C10: the tag-0 unassigned marker, the tag-5 function marker and the
invalid-tag case are all returned as ordinary host strings, of the same
type as a tag-4 string value; a tag-4 memory whose string content spells
the tag-5 marker text decodes to exactly the same value as a tag-5
memory, so the decoded result does not determine the tag. -/
theorem read_js_result_markers_are_strings :
    read_js_result memFunctionTag = .ok (.str "(function was returned)") ∧
    read_js_result memStringFunction = .ok (.str "(function was returned)") ∧
    read_js_result memStringFunction = read_js_result memFunctionTag ∧
    u32 memFunctionTag ((1 <<< 20) - 12) = 5 ∧
    u32 memStringFunction ((1 <<< 20) - 12) = 4 ∧
    read_js_result memTag0 = .ok (.str "(unassigned variable was returned)") ∧
    read_js_result memTag99 = .ok (.str "(struct or invalid type (99) was returned)") :=
  ⟨rfl, rfl, rfl, rfl, rfl, rfl, rfl⟩

/-- C3 counterexample: `read_js_result` is not total on arbitrary memory
contents — on a memory of the ABI-minimum `1 <<< 20` bytes whose tag is 4
and whose data word holds the pointer `0xFFFFFFF0`, the `DataView` read
of the length word is out of bounds and raises a `RangeError`, so no
value is returned. -/
theorem read_js_result_oob_pointer_raises :
    read_js_result memOobString = .error "RangeError" := rfl

/-- C3 (amended): `read_js_result` is a pure function of the memory
contents and returns a value without raising for every tag other than 4;
for tag 4 it returns without raising whenever the pointer and length
words read from memory denote a range inside the buffer (an unrecognized
tag yields the invalid-tag string rather than an error).  Out-of-range
tag-4 pointers raise a `RangeError` (see the counterexample). -/
theorem read_js_result_total_inbounds (m : LinearMemory)
    (hsize : 1 <<< 20 ≤ m.size) :
    (u32 m ((1 <<< 20) - 12) ≠ 4 → ∃ v, read_js_result m = .ok v) ∧
    (u32 m ((1 <<< 20) - 12) = 4 →
      u32 m ((1 <<< 20) - 8) + 4 + u32 m (u32 m ((1 <<< 20) - 8)) ≤ m.size →
      ∃ v, read_js_result m = .ok v) := by
  constructor
  · intro hne
    rcases Nat.lt_or_ge (u32 m ((1 <<< 20) - 12)) 6 with hlt | hge
    · have hcases : u32 m ((1 <<< 20) - 12) = 0 ∨ u32 m ((1 <<< 20) - 12) = 1 ∨
          u32 m ((1 <<< 20) - 12) = 2 ∨ u32 m ((1 <<< 20) - 12) = 3 ∨
          u32 m ((1 <<< 20) - 12) = 5 := by omega
      rcases hcases with h | h | h | h | h
      · exact ⟨_, read_js_result_tag0 m hsize h⟩
      · exact ⟨_, read_js_result_tag1 m hsize h⟩
      · exact ⟨_, read_js_result_tag2 m hsize h⟩
      · exact ⟨_, read_js_result_tag3 m hsize h⟩
      · exact ⟨_, read_js_result_tag5 m hsize h⟩
    · exact ⟨_, read_js_result_tagBig m hsize _ rfl hge⟩
  · intro h4 hb
    exact ⟨_, read_js_result_tag4 m hsize h4 hb⟩

/-- Witness for the amended C3 at a concrete memory with tag 99. -/
theorem read_js_result_total_inbounds_witness :
    ∃ v, read_js_result memTag99 = Except.ok v :=
  (read_js_result_total_inbounds memTag99 (by decide)).1 (by decide)

/-- C6: the decoder reads the 4-byte little-endian tag at byte offset
`(1 <<< 20) - 12` with data at `(1 <<< 20) - 8`, and returns: for tag 1
the undefined value; for tag 2 the double whose bit pattern is the 8-byte
little-endian word at the data offset; for tag 3 true exactly when the
4-byte little-endian word at the data offset is nonzero; for tag 4 the
UTF-8 decoding of `len` bytes at `p + 4` where `p` is the word at the
data offset and `len` the word at `p` (when that range is in bounds); and
for any tag outside the table the invalid-tag string carrying the raw tag
value. -/
theorem read_js_result_tag_semantics (m : LinearMemory)
    (hsize : 1 <<< 20 ≤ m.size) :
    (u32 m ((1 <<< 20) - 12) = 1 → read_js_result m = .ok .undef) ∧
    (u32 m ((1 <<< 20) - 12) = 2 →
      read_js_result m = .ok (.number (u64 m ((1 <<< 20) - 8)))) ∧
    (u32 m ((1 <<< 20) - 12) = 3 →
      read_js_result m = .ok (.boolean (u32 m ((1 <<< 20) - 8) != 0))) ∧
    (∀ p len, u32 m ((1 <<< 20) - 12) = 4 → u32 m ((1 <<< 20) - 8) = p →
      u32 m p = len → p + 4 + len ≤ m.size →
      read_js_result m = .ok (.str (String.mk (utf8Decode (byteSlice m (p + 4) len))))) ∧
    (∀ t, u32 m ((1 <<< 20) - 12) = t → 6 ≤ t →
      read_js_result m =
        .ok (.str ("(struct or invalid type (" ++ toString t ++ ") was returned)"))) := by
  refine ⟨read_js_result_tag1 m hsize, read_js_result_tag2 m hsize,
    read_js_result_tag3 m hsize, ?_, ?_⟩
  · intro p len h4 hp hl hb
    subst hp
    subst hl
    exact read_js_result_tag4 m hsize h4 hb
  · intro t ht h6
    exact read_js_result_tagBig m hsize t ht h6

/-- Witness for C6 at a concrete memory holding tag 2 and the bit
pattern of the double 3.14 at the data offset. -/
theorem read_js_result_tag_semantics_witness :
    read_js_result memTag2 = .ok (.number (u64 memTag2 ((1 <<< 20) - 8))) :=
  (read_js_result_tag_semantics memTag2 (by decide)).2.1 (by decide)

/-- C7: when parsing yields a tree, every callback invocation has
severity code below 4, the compiler produces bytes and host validation
accepts them, `compile` fulfils with the validated module (validation was
attempted) and every diagnostic it appended has Warning severity. -/
theorem compile_success_only_warnings (env : CompileEnv) (tree : String)
    (bytes : List Nat) (m : WasmModule)
    (hp : env.parseResult = some tree)
    (hw : ∀ e ∈ env.callbackEvents, e.severity_code < 4)
    (hs : env.sourcerorResult = .ok bytes)
    (hv : env.validateResult bytes = .ok m) :
    (compile env).outcome = .fulfilledModule m ∧
    (compile env).validationAttempted = true ∧
    ∀ d ∈ (compile env).diagnostics, d.severity = .WARNING := by
  obtain ⟨p, ev, sr, vr⟩ := env
  dsimp only [] at hp hw hs hv ⊢
  subst hp
  subst hs
  have hae : (ev.any fun e => decide (4 ≤ e.severity_code)) = false := by
    rw [List.any_eq_false]
    intro e he
    simpa using not_le.mpr (hw e he)
  have hres : compile ⟨some tree, ev, .ok bytes, vr⟩ =
      { outcome := .fulfilledModule m
      , diagnostics := ev.map callbackDiagnostic
      , createCalls := 1
      , destroyCalls := 1
      , validationAttempted := true } := by
    simp only [compile, hae, Bool.false_eq_true, if_false, hv]
  rw [hres]
  refine ⟨rfl, rfl, ?_⟩
  intro d hd
  rw [List.mem_map] at hd
  obtain ⟨e, he, rfl⟩ := hd
  unfold callbackDiagnostic
  dsimp only []
  rw [if_neg (not_le.mpr (hw e he))]

/-- Witness for C7 at a concrete environment with one warning-severity
callback invocation, bytes and a host that accepts them as module 7. -/
theorem compile_success_only_warnings_witness :
    (compile envSuccess).outcome = .fulfilledModule ⟨7⟩ :=
  (compile_success_only_warnings envSuccess "prog" [0, 97, 115, 109] ⟨7⟩
    rfl (by decide) rfl rfl).1

end SourcerorDriver
